import Mathlib

/-!
# layers_common.simd_declarations.hpp

A verification development for the single source file of the repository,
`rubiks_cube_solver/opencv/build/modules/dnn/int8layers/layers_common.simd_declarations.hpp`.

The file is a list of C preprocessor directives.  It is embedded here as its
text, line by line, together with a small lexer for preprocessor lines and an
interpreter of `#define` / `#include` / `#undef` over a macro environment.
-/

namespace SimdDeclarations

/-! ## The source text -/

/-- Line 1 of the file. -/
def line01 : String :=
  "#define CV_CPU_SIMD_FILENAME \"/Users/ritwikbiswas/Desktop/placement_resources/placement_2026/placement_projects/rubiks_cube_solver/opencv-4.12.0/modules/dnn/src/int8layers/layers_common.simd.hpp\""

/-- The sixteen lines of `layers_common.simd_declarations.hpp`, in file order. -/
def sourceLines : List String :=
  [ line01
  , "#define CV_CPU_DISPATCH_MODE AVX2"
  , "#include \"opencv2/core/private/cv_cpu_include_simd_declarations.hpp\""
  , ""
  , "#define CV_CPU_DISPATCH_MODE AVX512_SKX"
  , "#include \"opencv2/core/private/cv_cpu_include_simd_declarations.hpp\""
  , ""
  , "#define CV_CPU_DISPATCH_MODE RVV"
  , "#include \"opencv2/core/private/cv_cpu_include_simd_declarations.hpp\""
  , ""
  , "#define CV_CPU_DISPATCH_MODE LASX"
  , "#include \"opencv2/core/private/cv_cpu_include_simd_declarations.hpp\""
  , ""
  , "#define CV_CPU_DISPATCH_MODES_ALL LASX, RVV, AVX512_SKX, AVX2, BASELINE"
  , ""
  , "#undef CV_CPU_SIMD_FILENAME" ]

/-! ## Lexing a preprocessor line -/

/-- Horizontal white space inside a line. -/
def isBlankChar (c : Char) : Bool :=
  c = ' ' || c = '\t' || c = '\r'

/-- Characters of a C identifier. -/
def isIdentChar (c : Char) : Bool :=
  c.isAlphanum || c = '_'

/-- Drop leading white space. -/
def trimLeft : List Char → List Char
  | [] => []
  | c :: cs => if isBlankChar c then trimLeft cs else c :: cs

/-- Drop trailing white space. -/
def trimRight (cs : List Char) : List Char :=
  (trimLeft cs.reverse).reverse

/-- Drop white space at both ends. -/
def trim (cs : List Char) : List Char :=
  trimRight (trimLeft cs)

/-- The longest prefix of identifier characters, and what follows it. -/
def spanIdent : List Char → List Char × List Char
  | [] => ([], [])
  | c :: cs =>
    if isIdentChar c then
      let r := spanIdent cs
      (c :: r.1, r.2)
    else ([], c :: cs)

/-- What a physical line of the file is. -/
inductive LineKind
  | blank
  | directive (keyword : String) (rest : List Char)
  | code (text : List Char)
  deriving DecidableEq, Repr

/-- Classify a line: empty, a directive (first non-blank character `#`), or
anything else, which is C++ text. -/
def classify (line : String) : LineKind :=
  match trimLeft line.toList with
  | [] => .blank
  | '#' :: cs =>
    let r := spanIdent (trimLeft cs)
    .directive (String.mk r.1) r.2
  | c :: cs => .code (c :: cs)

/-- The keyword of a directive line. -/
def LineKind.keyword? : LineKind → Option String
  | .directive k _ => some k
  | _ => none

/-- Whether the line is empty or white space only. -/
def LineKind.isBlank : LineKind → Bool
  | .blank => true
  | _ => false

/-- Whether the line is C++ text rather than a directive. -/
def LineKind.isCode : LineKind → Bool
  | .code _ => true
  | _ => false

/-! ## Directives -/

/-- The double quote character. -/
def dquote : Char := Char.ofNat 34

/-- The directives the interpreter knows, and the two kinds of line it does
not interpret: any other directive (kept with its keyword) and C++ text. -/
inductive Directive
  | define (name : String) (body : String)
  | incl (header : String)
  | undefine (name : String)
  | other (keyword : String)
  | text
  deriving DecidableEq, Repr

/-- Parse `#define NAME body` (an object-like macro). -/
def parseDefine (rest : List Char) : Directive :=
  let r := spanIdent (trimLeft rest)
  if r.1 = [] then .other "define"
  else match r.2 with
    | '(' :: _ => .other "define"
    | body => .define (String.mk r.1) (String.mk (trim body))

/-- Parse `#include "header"`. -/
def parseInclude (rest : List Char) : Directive :=
  match trim rest with
  | [] => .other "include"
  | c :: cs =>
    if c = dquote then
      match cs.reverse with
      | [] => .other "include"
      | d :: rs => if d = dquote then .incl (String.mk rs.reverse) else .other "include"
    else .other "include"

/-- Parse `#undef NAME`. -/
def parseUndefine (rest : List Char) : Directive :=
  let r := spanIdent (trimLeft rest)
  if r.1 = [] then .other "undef"
  else if trim r.2 = [] then .undefine (String.mk r.1)
  else .other "undef"

/-- Parse the part of a directive line after its keyword. -/
def parseDirective (keyword : String) (rest : List Char) : Directive :=
  if keyword = "define" then parseDefine rest
  else if keyword = "include" then parseInclude rest
  else if keyword = "undef" then parseUndefine rest
  else .other keyword

/-- Parse one line; a blank line gives nothing. -/
def parseLine (line : String) : Option Directive :=
  match classify line with
  | .blank => none
  | .directive k rest => some (parseDirective k rest)
  | .code _ => some .text

/-- Parse numbered lines, dropping the blank ones. -/
def parseLines : List (Nat × String) → List (Nat × Directive)
  | [] => []
  | (n, l) :: ls =>
    match parseLine l with
    | none => parseLines ls
    | some d => (n, d) :: parseLines ls

/-- The directives of the file, each with its line number (from 1). -/
def directives : List (Nat × Directive) :=
  parseLines (sourceLines.enumFrom 1)

/-- Replacement texts of the `#define`s of `name`, in file order. -/
def definesOf (name : String) : List (Nat × Directive) → List String
  | [] => []
  | (_, .define n b) :: ds => if n = name then b :: definesOf name ds else definesOf name ds
  | _ :: ds => definesOf name ds

/-- Lines on which `name` is `#define`d. -/
def definitionLines (name : String) : List (Nat × Directive) → List Nat
  | [] => []
  | (l, .define n _) :: ds =>
    if n = name then l :: definitionLines name ds else definitionLines name ds
  | _ :: ds => definitionLines name ds

/-- Lines on which `name` is `#undef`ined. -/
def undefLines (name : String) : List (Nat × Directive) → List Nat
  | [] => []
  | (l, .undefine n) :: ds => if n = name then l :: undefLines name ds else undefLines name ds
  | _ :: ds => undefLines name ds

/-- Lines holding an `#include`. -/
def includeLines : List (Nat × Directive) → List Nat
  | [] => []
  | (l, .incl _) :: ds => l :: includeLines ds
  | _ :: ds => includeLines ds

/-- Split at every comma. -/
def splitCommas : List Char → List (List Char)
  | [] => [[]]
  | c :: cs =>
    match splitCommas cs with
    | [] => [[c]]
    | w :: ws => if c = ',' then [] :: w :: ws else (c :: w) :: ws

/-- The names of a comma-separated replacement list. -/
def macroList (body : String) : List String :=
  (splitCommas body.toList).map (fun w => String.mk (trim w))

/-- The text between the quotes of a string literal. -/
def unquote (s : String) : Option String :=
  match s.toList with
  | [] => none
  | c :: cs =>
    if c = dquote then
      match cs.reverse with
      | [] => none
      | d :: rs => if d = dquote then some (String.mk rs.reverse) else none
    else none

/-! ## Macro environments and the interpreter -/

/-- A macro environment: a map from names to replacement text. -/
abbrev Env := String → Option String

/-- The environment binding nothing. -/
def Env.empty : Env := fun _ => none

/-- Bind `name` to `body`, whatever it was bound to. -/
def Env.define (e : Env) (name body : String) : Env :=
  fun n => if n = name then some body else e n

/-- Remove the binding of `name`, if any. -/
def Env.undefine (e : Env) (name : String) : Env :=
  fun n => if n = name then none else e n

/-- An inclusion point: the line of the `#include`, the header, and the
environment in which the header is entered. -/
structure Inclusion where
  line : Nat
  header : String
  env : Env

/-- Interpreter state: the environment and the inclusion points so far, in
file order. -/
structure State where
  env : Env
  inclusions : List Inclusion

/-- The state before the first line. -/
def State.init (e : Env) : State := ⟨e, []⟩

/-- Why a run stops early. -/
inductive RunError
  | redefinition (line : Nat) (name : String)
  | unsupported (line : Nat)
  deriving DecidableEq, Repr

/-- One directive.  `inc` is the effect of a header on the environment (the
included header is not part of the file).  With `strict` set, a `#define` of
a name bound to a different replacement text is an error; without it the new
text replaces the old one. -/
def step (strict : Bool) (inc : String → Env → Env) (st : State) :
    Nat × Directive → Except RunError State
  | (l, .define name body) =>
    match st.env name with
    | none => .ok { st with env := st.env.define name body }
    | some old =>
      if strict && old != body then .error (.redefinition l name)
      else .ok { st with env := st.env.define name body }
  | (l, .incl h) =>
    .ok { env := inc h st.env, inclusions := st.inclusions ++ [⟨l, h, st.env⟩] }
  | (_, .undefine name) => .ok { st with env := st.env.undefine name }
  | (l, .other _) => .error (.unsupported l)
  | (l, .text) => .error (.unsupported l)

/-- Run directives in order, stopping at the first error. -/
def run (strict : Bool) (inc : String → Env → Env) :
    List (Nat × Directive) → State → Except RunError State
  | [], st => .ok st
  | d :: ds, st =>
    match step strict inc st d with
    | .error e => .error e
    | .ok st1 => run strict inc ds st1

/-- An inclusion that leaves the environment unchanged. -/
def includeKeep : String → Env → Env := fun _ e => e

/-- An inclusion that undefines `CV_CPU_DISPATCH_MODE` and changes no other
binding. -/
def includeUndefMode : String → Env → Env := fun _ e => e.undefine "CV_CPU_DISPATCH_MODE"

/-- The values of `CV_CPU_DISPATCH_MODE` at the inclusion points of a run of
the file from the empty environment: the modes for which the header is
included. -/
def includedModes (inc : String → Env → Env) : List String :=
  match run false inc directives (State.init Env.empty) with
  | .error _ => []
  | .ok st => st.inclusions.filterMap (fun i => i.env "CV_CPU_DISPATCH_MODE")

/-- The directive on a given line of the file, if that line holds one. -/
def directiveAt (l : Nat) : Option Directive :=
  directives.lookup l

/-! ## The parsed file -/

/-- The header every `#include` of the file names. -/
def simdHeader : String := "opencv2/core/private/cv_cpu_include_simd_declarations.hpp"

/-- The replacement text of `CV_CPU_SIMD_FILENAME`: a string literal, quotes
included. -/
def simdFilename : String :=
  "\"/Users/ritwikbiswas/Desktop/placement_resources/placement_2026/placement_projects/rubiks_cube_solver/opencv-4.12.0/modules/dnn/src/int8layers/layers_common.simd.hpp\""

set_option maxRecDepth 100000 in
/-- The result of parsing the sixteen lines. -/
theorem directives_eq :
    directives =
      [ (1, .define "CV_CPU_SIMD_FILENAME" simdFilename)
      , (2, .define "CV_CPU_DISPATCH_MODE" "AVX2")
      , (3, .incl simdHeader)
      , (5, .define "CV_CPU_DISPATCH_MODE" "AVX512_SKX")
      , (6, .incl simdHeader)
      , (8, .define "CV_CPU_DISPATCH_MODE" "RVV")
      , (9, .incl simdHeader)
      , (11, .define "CV_CPU_DISPATCH_MODE" "LASX")
      , (12, .incl simdHeader)
      , (14, .define "CV_CPU_DISPATCH_MODES_ALL" "LASX, RVV, AVX512_SKX, AVX2, BASELINE")
      , (16, .undefine "CV_CPU_SIMD_FILENAME") ] := by
  decide

/-- An inclusion with the assumed effect is `Env.undefine` of the mode symbol. -/
theorem inc_eq_undefine (inc : String → Env → Env)
    (hinc : ∀ e n, inc simdHeader e n = if n = "CV_CPU_DISPATCH_MODE" then none else e n) :
    inc simdHeader = fun e => e.undefine "CV_CPU_DISPATCH_MODE" := by
  funext e n
  simp [hinc, Env.undefine]

set_option maxRecDepth 100000 in
/-- The directives on the lines just before the four `#include`s. -/
theorem directiveAt_before :
    directiveAt 2 = some (.define "CV_CPU_DISPATCH_MODE" "AVX2")
    ∧ directiveAt 5 = some (.define "CV_CPU_DISPATCH_MODE" "AVX512_SKX")
    ∧ directiveAt 8 = some (.define "CV_CPU_DISPATCH_MODE" "RVV")
    ∧ directiveAt 11 = some (.define "CV_CPU_DISPATCH_MODE" "LASX") := by
  decide

/-- Without the strict check a `#define` always succeeds and rebinds the name. -/
theorem step_define_lenient (inc : String → Env → Env) (st : State) (l : Nat)
    (name body : String) :
    step false inc st (l, .define name body)
      = .ok { st with env := st.env.define name body } := by
  cases h : st.env name <;> simp [step, h]

set_option maxRecDepth 100000 in
/-- The replacement list of `CV_CPU_DISPATCH_MODES_ALL`, split on commas. -/
theorem macroList_all :
    macroList "LASX, RVV, AVX512_SKX, AVX2, BASELINE"
      = ["LASX", "RVV", "AVX512_SKX", "AVX2", "BASELINE"] := by
  decide

set_option maxRecDepth 100000 in
/-- The modes bound at the inclusion points, under either effect of an inclusion. -/
theorem includedModes_eq :
    includedModes includeKeep = ["AVX2", "AVX512_SKX", "RVV", "LASX"]
    ∧ includedModes includeUndefMode = ["AVX2", "AVX512_SKX", "RVV", "LASX"] := by
  decide

/-! ## The claims -/

/-- C1: the directives of the file are, in order: the `#define` of
`CV_CPU_SIMD_FILENAME`; four consecutive pairs (`#define CV_CPU_DISPATCH_MODE m`,
`#include H`) for `m` = AVX2, AVX512_SKX, RVV, LASX, with the same header `H`
`opencv2/core/private/cv_cpu_include_simd_declarations.hpp` in all four; one
`#define` of `CV_CPU_DISPATCH_MODES_ALL`; and last `#undef CV_CPU_SIMD_FILENAME`.
There is no other directive, and the two members of each pair are on adjacent
lines. -/
theorem C1_file_shape :
    directives.map Prod.snd
      = [Directive.define "CV_CPU_SIMD_FILENAME" simdFilename]
        ++ (["AVX2", "AVX512_SKX", "RVV", "LASX"].flatMap fun m =>
              [Directive.define "CV_CPU_DISPATCH_MODE" m, Directive.incl simdHeader])
        ++ [ Directive.define "CV_CPU_DISPATCH_MODES_ALL" "LASX, RVV, AVX512_SKX, AVX2, BASELINE"
           , Directive.undefine "CV_CPU_SIMD_FILENAME" ]
    ∧ simdHeader = "opencv2/core/private/cv_cpu_include_simd_declarations.hpp"
    ∧ directives.map Prod.fst = [1, 2, 3, 5, 6, 8, 9, 11, 12, 14, 16] := by
  rw [directives_eq]
  refine ⟨?_, rfl, ?_⟩ <;> simp

/-- C2: `CV_CPU_DISPATCH_MODES_ALL` is defined once and its replacement list,
split on commas, has exactly the five names AVX2, AVX512_SKX, RVV, LASX,
BASELINE, without duplicates; the values given to `CV_CPU_DISPATCH_MODE` across
the file are exactly the four pairwise distinct names AVX2, AVX512_SKX, RVV,
LASX, and BASELINE is not among them. -/
theorem C2_dispatch_variants :
    (∃ names, (definesOf "CV_CPU_DISPATCH_MODES_ALL" directives).map macroList = [names]
      ∧ names.length = 5 ∧ names.Nodup
      ∧ ∀ n, n ∈ names ↔ n ∈ ["AVX2", "AVX512_SKX", "RVV", "LASX", "BASELINE"])
    ∧ (definesOf "CV_CPU_DISPATCH_MODE" directives).length = 4
    ∧ (definesOf "CV_CPU_DISPATCH_MODE" directives).Nodup
    ∧ (∀ n, n ∈ definesOf "CV_CPU_DISPATCH_MODE" directives
          ↔ n ∈ ["AVX2", "AVX512_SKX", "RVV", "LASX"])
    ∧ "BASELINE" ∉ definesOf "CV_CPU_DISPATCH_MODE" directives := by
  rw [directives_eq]
  refine ⟨⟨["LASX", "RVV", "AVX512_SKX", "AVX2", "BASELINE"], ?_, rfl, by decide, ?_⟩,
    ?_, ?_, ?_, ?_⟩
  · simp [definesOf, macroList_all]
  · intro n
    simp only [List.mem_cons, List.mem_singleton, List.not_mem_nil, or_false]
    tauto
  · simp [definesOf]
  · simp [definesOf]
  · intro n
    simp [definesOf]
  · simp [definesOf]

set_option maxRecDepth 100000 in
/-- C3: run without the redefinition check, from any initial environment and
with any effect of the inclusions that leaves `CV_CPU_SIMD_FILENAME` alone (an
inclusion that changes nothing is one): `CV_CPU_SIMD_FILENAME` is defined once,
on line 1, before the first `#include`, and undefined only on line 16, after
the last one; at each of the four inclusion points it is bound to the same
string literal, whose path ends in
`modules/dnn/src/int8layers/layers_common.simd.hpp`; the run reaches the end and
in the final environment `CV_CPU_SIMD_FILENAME` is not defined. -/
theorem C3_filename_binding (inc : String → Env → Env) (env : Env)
    (hinc : ∀ h e, inc h e "CV_CPU_SIMD_FILENAME" = e "CV_CPU_SIMD_FILENAME") :
    definitionLines "CV_CPU_SIMD_FILENAME" directives = [1]
    ∧ undefLines "CV_CPU_SIMD_FILENAME" directives = [16]
    ∧ includeLines directives = [3, 6, 9, 12]
    ∧ (∃ dir, unquote simdFilename
          = some (dir ++ "modules/dnn/src/int8layers/layers_common.simd.hpp"))
    ∧ ∃ st, run false inc directives (State.init env) = .ok st
        ∧ st.inclusions.map (fun i => (i.line, i.env "CV_CPU_SIMD_FILENAME"))
            = [ (3, some simdFilename), (6, some simdFilename)
              , (9, some simdFilename), (12, some simdFilename) ]
        ∧ st.env "CV_CPU_SIMD_FILENAME" = none := by
  rw [directives_eq]
  refine ⟨?_, ?_, ?_, ?_, ?_⟩
  · simp [definitionLines]
  · simp [undefLines]
  · simp [includeLines]
  · exact ⟨"/Users/ritwikbiswas/Desktop/placement_resources/placement_2026/placement_projects/rubiks_cube_solver/opencv-4.12.0/", by decide⟩
  · simp [run, step_define_lenient, State.init]
    simp [step, Env.define, Env.undefine, hinc]

/-- C3 at the empty environment, with inclusions that change nothing. -/
theorem C3_filename_binding_witness :
    (∀ h e, includeKeep h e "CV_CPU_SIMD_FILENAME" = e "CV_CPU_SIMD_FILENAME")
    ∧ ∃ st, run false includeKeep directives (State.init Env.empty) = .ok st
        ∧ st.inclusions.map (fun i => (i.line, i.env "CV_CPU_SIMD_FILENAME"))
            = [ (3, some simdFilename), (6, some simdFilename)
              , (9, some simdFilename), (12, some simdFilename) ]
        ∧ st.env "CV_CPU_SIMD_FILENAME" = none :=
  ⟨fun _ _ => rfl, (C3_filename_binding includeKeep Env.empty (fun _ _ => rfl)).2.2.2.2⟩

set_option maxRecDepth 100000 in
/-- C4: every line of the file is blank or a preprocessor directive whose
keyword is `define`, `include` or `undef`; no line is a conditional directive
(`if`, `ifdef`, `ifndef`, `elif`, `else`, `endif`) or an `error` directive, and
no line is C++ text. -/
theorem C4_only_macro_directives :
    (∀ l ∈ sourceLines, (classify l).isBlank = true
        ∨ (classify l).keyword? ∈ [some "define", some "include", some "undef"])
    ∧ (∀ l ∈ sourceLines,
        ∀ k ∈ ["if", "ifdef", "ifndef", "elif", "else", "endif", "error"],
          (classify l).keyword? ≠ some k)
    ∧ (∀ l ∈ sourceLines, (classify l).isCode = false)
    ∧ (∀ d ∈ directives, ∃ a b, d.2 = .define a b ∨ d.2 = .incl a ∨ d.2 = .undefine a) := by
  refine ⟨by decide, by decide, by decide, ?_⟩
  rw [directives_eq]
  simp

/-- C5: the names of `CV_CPU_DISPATCH_MODES_ALL` are the values given to
`CV_CPU_DISPATCH_MODE`, in reverse file order, followed by BASELINE; every mode
for which the header is included occurs exactly once among them, and BASELINE
is their only member for which the header is not included. -/
theorem C5_aggregate_from_modes :
    ∃ names, (definesOf "CV_CPU_DISPATCH_MODES_ALL" directives).map macroList = [names]
      ∧ names = (definesOf "CV_CPU_DISPATCH_MODE" directives).reverse ++ ["BASELINE"]
      ∧ includedModes includeKeep = definesOf "CV_CPU_DISPATCH_MODE" directives
      ∧ includedModes includeUndefMode = definesOf "CV_CPU_DISPATCH_MODE" directives
      ∧ (∀ m ∈ includedModes includeKeep, names.count m = 1)
      ∧ (∀ n ∈ names, n ∉ includedModes includeKeep ↔ n = "BASELINE") := by
  rw [includedModes_eq.1, includedModes_eq.2, directives_eq]
  refine ⟨["LASX", "RVV", "AVX512_SKX", "AVX2", "BASELINE"], ?_, ?_, ?_, ?_, ?_, ?_⟩
  · simp [definesOf, macroList_all]
  · simp [definesOf]
  · simp [definesOf]
  · simp [definesOf]
  · decide
  · decide

/-- C6: run with the redefinition check, each inclusion of the header
undefining `CV_CPU_DISPATCH_MODE` and changing no other binding, from any
environment binding none of `CV_CPU_SIMD_FILENAME`, `CV_CPU_DISPATCH_MODE`,
`CV_CPU_DISPATCH_MODES_ALL`: the run reaches the end without an error; at the
inclusion points on lines 3, 6, 9, 12 `CV_CPU_DISPATCH_MODE` is bound to the
mode defined on the line just before; the final environment is the initial one
with `CV_CPU_DISPATCH_MODES_ALL` bound in addition, `CV_CPU_DISPATCH_MODE` and
`CV_CPU_SIMD_FILENAME` being unbound.  With inclusions that leave the
environment unchanged the run stops at line 5, the second `#define` of
`CV_CPU_DISPATCH_MODE`, with a redefinition error. -/
theorem C6_strict_run (inc : String → Env → Env) (env : Env)
    (hinc : ∀ e n, inc simdHeader e n = if n = "CV_CPU_DISPATCH_MODE" then none else e n)
    (hF : env "CV_CPU_SIMD_FILENAME" = none)
    (hM : env "CV_CPU_DISPATCH_MODE" = none)
    (hA : env "CV_CPU_DISPATCH_MODES_ALL" = none) :
    (∃ st, run true inc directives (State.init env) = .ok st
      ∧ st.inclusions.map
          (fun i => (i.line, directiveAt (i.line - 1), i.env "CV_CPU_DISPATCH_MODE"))
        = [ (3, some (.define "CV_CPU_DISPATCH_MODE" "AVX2"), some "AVX2")
          , (6, some (.define "CV_CPU_DISPATCH_MODE" "AVX512_SKX"), some "AVX512_SKX")
          , (9, some (.define "CV_CPU_DISPATCH_MODE" "RVV"), some "RVV")
          , (12, some (.define "CV_CPU_DISPATCH_MODE" "LASX"), some "LASX") ]
      ∧ (∀ n, st.env n =
          if n = "CV_CPU_DISPATCH_MODES_ALL" then some "LASX, RVV, AVX512_SKX, AVX2, BASELINE"
          else env n)
      ∧ st.env "CV_CPU_DISPATCH_MODE" = none
      ∧ st.env "CV_CPU_SIMD_FILENAME" = none)
    ∧ definitionLines "CV_CPU_DISPATCH_MODE" directives = [2, 5, 8, 11]
    ∧ run true includeKeep directives (State.init env)
        = .error (.redefinition 5 "CV_CPU_DISPATCH_MODE") := by
  have hinc1 := inc_eq_undefine inc hinc
  obtain ⟨h2, h5, h8, h11⟩ := directiveAt_before
  rw [directives_eq]
  refine ⟨?_, ?_, ?_⟩
  · simp [run, step, State.init, hinc1, Env.define, Env.undefine, hF, hM, hA,
      h2, h5, h8, h11]
    intro n
    split_ifs <;> simp_all
  · simp [definitionLines]
  · simp [run, step, State.init, includeKeep, Env.define, Env.undefine, hF, hM, hA]

/-- C6 at the empty environment, with the inclusion that undefines
`CV_CPU_DISPATCH_MODE`. -/
theorem C6_strict_run_witness :
    (∀ e n, includeUndefMode simdHeader e n
        = if n = "CV_CPU_DISPATCH_MODE" then none else e n)
    ∧ Env.empty "CV_CPU_SIMD_FILENAME" = none
    ∧ Env.empty "CV_CPU_DISPATCH_MODE" = none
    ∧ Env.empty "CV_CPU_DISPATCH_MODES_ALL" = none
    ∧ (∃ st, run true includeUndefMode directives (State.init Env.empty) = .ok st
        ∧ st.inclusions.map
            (fun i => (i.line, directiveAt (i.line - 1), i.env "CV_CPU_DISPATCH_MODE"))
          = [ (3, some (.define "CV_CPU_DISPATCH_MODE" "AVX2"), some "AVX2")
            , (6, some (.define "CV_CPU_DISPATCH_MODE" "AVX512_SKX"), some "AVX512_SKX")
            , (9, some (.define "CV_CPU_DISPATCH_MODE" "RVV"), some "RVV")
            , (12, some (.define "CV_CPU_DISPATCH_MODE" "LASX"), some "LASX") ]
        ∧ (∀ n, st.env n =
            if n = "CV_CPU_DISPATCH_MODES_ALL" then
              some "LASX, RVV, AVX512_SKX, AVX2, BASELINE"
            else Env.empty n)
        ∧ st.env "CV_CPU_DISPATCH_MODE" = none
        ∧ st.env "CV_CPU_SIMD_FILENAME" = none)
    ∧ run true includeKeep directives (State.init Env.empty)
        = .error (.redefinition 5 "CV_CPU_DISPATCH_MODE") :=
  have h := C6_strict_run includeUndefMode Env.empty (fun _ _ => rfl) rfl rfl rfl
  ⟨fun _ _ => rfl, rfl, rfl, rfl, h.1, h.2.2⟩

end SimdDeclarations
